import Mathlib

/-!
Shallow embedding of the `production_sim` package (Production Trap Simulator):
the message log (`helper.add_unique_messages`), the per-learner signature
(`helper.get_id_signature`), the scenario personalization
(`scenarios.ScenarioManager.get_dynamic_scenario`), the three agent nodes
(`agents.AgentNodes`), and one external turn of the LangGraph workflow
(`graph.ProductionTrapSim`).

Modelling conventions:
* A transcript event (`langchain` `BaseMessage`) is a `Msg` carrying its
  top-level `id : Option String` (`BaseMessage.id`, `None` unless set), its
  textual `content`, and its role. The `additional_kwargs` uuid written by
  `helper.create_ai_message` / `create_sys_message` is never read by any of
  the embedded operations (only by the CLI printer) and is omitted.
* Python truthiness of an optional string (`if getattr(m, "id", None)`) is
  `idTruthy`: the id is present and non-empty.
* Oracle (LLM) calls are parameters of the node functions: the Lead's review
  call yields a reply string; the Validator's call yields `Except Unit Msg`
  where `Except.error` models the call raising.
* Python's `state["messages"][-1]` on an empty list raises `IndexError`;
  node functions return `Option` and yield `none` exactly on that access.
-/

/-- Role of a transcript event (`AIMessage` / `SystemMessage` / `HumanMessage`). -/
inductive Role where
  | ai
  | system
  | human
deriving DecidableEq, Repr

/-- A transcript event: `langchain` `BaseMessage` as read by the embedded code.
`id` models `BaseMessage.id` (defaults to `None` on creation). -/
structure Msg where
  id : Option String
  content : String
  role : Role
deriving DecidableEq, Repr

/-- Python truthiness of `getattr(m, "id", None)`: a present, non-empty string. -/
def idTruthy : Option String → Bool
  | none => false
  | some s => s ≠ ""

/-- `{m.id for m in existing if getattr(m, "id", None)}` from
`helper.add_unique_messages` (as a list of the truthy id strings). -/
def seen_ids (existing : List Msg) : List String :=
  existing.filterMap (fun m => if idTruthy m.id then m.id else none)

/-- Membership test `getattr(m, "id", None) not in seen_ids`: a `None` id is
never an element of a set of strings. -/
def idNotSeen (seen : List String) : Option String → Bool
  | none => true
  | some s => ¬ s ∈ seen

/-- `helper.add_unique_messages`: append to `existing` those elements of `new`
whose id is not among the truthy ids already present in `existing`. -/
def add_unique_messages (existing new : List Msg) : List Msg :=
  let seen := seen_ids existing
  existing ++ new.filter (fun m => idNotSeen seen m.id)

/-- `helper.create_ai_message`: an `AIMessage` with the uuid stored in
`additional_kwargs` (not in the top-level `id`, which stays `None`). -/
def create_ai_message (content : String) : Msg :=
  { id := none, content := content, role := Role.ai }

/-- `helper.create_sys_message`: a `SystemMessage`, top-level `id` `None`. -/
def create_sys_message (content : String) : Msg :=
  { id := none, content := content, role := Role.system }

/-! ### Substring containment (Python's `in` on strings, after `.upper()`) -/

/-- Python `needle in hay` on lists of characters: some suffix of `hay` starts
with `needle`. -/
def listContainsSub (hay needle : List Char) : Bool :=
  match hay with
  | [] => needle.isEmpty
  | _ :: t => needle.isPrefixOf hay || listContainsSub t needle

/-- Python `needle in hay` on strings. -/
def strContainsSub (hay needle : String) : Bool :=
  listContainsSub hay.toList needle.toList

/-- Python `s.upper()` (over the characters of `s`). -/
def strUpper (s : String) : String :=
  String.mk (s.toList.map Char.toUpper)

/-! ### `helper.get_id_signature` -/

/-- A 32-bit accumulator hash of a string, used to seed the shuffle model. -/
def strSeed (s : String) : Nat :=
  s.toList.foldl (fun a c => (a * 31 + c.toNat) % 4294967296) 5381

/-- Model of Python's `random.Random(seed).shuffle` on a list: CPython's
Mersenne-Twister shuffle is, for a fixed seed string, a deterministic
permutation of its input; we model it as the rotation of the list by a
seed-derived offset — a deterministic permutation, which is the only
property of the shuffle the surrounding code relies on. -/
def pyShuffle (seed : String) (l : List Char) : List Char :=
  l.rotate (strSeed seed % (l.length + 1))

/-- The `mapping.get(d, "X")` lookup of `helper.get_id_signature`:
`{str(i): chr(65 + i) for i in range(10)}` with default `'X'`. -/
def digit_to_letter (c : Char) : Char :=
  if c.isDigit then Char.ofNat (65 + (c.toNat - 48)) else 'X'

/-- `helper.get_id_signature`: extract the digits of `student_id`; fall back to
`"GEN"` when there are none; otherwise shuffle the digits with a generator
seeded by the full id, take the first three, and map digits to letters. -/
def get_id_signature (student_id : String) : String :=
  let digits := student_id.toList.filter Char.isDigit
  if digits.isEmpty then "GEN"
  else
    let shuffled_digits := pyShuffle student_id digits
    let selected_digits := shuffled_digits.take 3
    String.mk (selected_digits.map digit_to_letter)

/-! ### `scenarios.ScenarioManager` -/

/-- A scenario payload with all fields present (the shape of the base
templates in `ScenarioManager.scenarios` and of `state["scenario_data"]`). -/
structure Scenario where
  id : String
  name : String
  dev_requirement : String
  prod_issue : String
  required_fix_concept : String
  validation_criteria : String
  requirements : List String
  risk_level : String
deriving DecidableEq, Repr

/-- A parsed oracle JSON object, a Python dict: `none` in a field models the
key being absent. -/
structure SDict where
  id : Option String
  name : Option String
  dev_requirement : Option String
  prod_issue : Option String
  required_fix_concept : Option String
  validation_criteria : Option String
  requirements : Option (List String)
  risk_level : Option String
deriving DecidableEq, Repr

/-- View a fully populated scenario as a dict with every key present. -/
def Scenario.toSDict (s : Scenario) : SDict :=
  { id := some s.id, name := some s.name, dev_requirement := some s.dev_requirement,
    prod_issue := some s.prod_issue, required_fix_concept := some s.required_fix_concept,
    validation_criteria := some s.validation_criteria, requirements := some s.requirements,
    risk_level := some s.risk_level }

/-- Outcome of `chain.invoke` in `get_dynamic_scenario`: the call raises, or
returns a falsy value (`None` / empty dict), or returns a dict. -/
inductive DynResult where
  | raise
  | null
  | dict (d : SDict)
deriving DecidableEq, Repr

/-- First base template of `ScenarioManager.scenarios` (`legacy_token`). -/
def legacy_token_template : Scenario :=
  { id := "legacy_token",
    name := "Token Validation vs Legacy",
    dev_requirement := "Add a security Token validation middleware to all API calls.",
    prod_issue := "💥 CRITICAL INCIDENT: Legacy Reporting System cannot authenticate!\n❌ The CEO and other legacy users are reporting 401 Unauthorized errors.",
    required_fix_concept := "backward_compatibility",
    validation_criteria := "Middleware must enforce token validation but allow exceptions for legacy clients.",
    requirements := ["validate_authorization_header", "exclude_legacy_clients", "return_401_on_missing_token"],
    risk_level := "high" }

/-- Second base template of `ScenarioManager.scenarios` (`db_lock`). -/
def db_lock_template : Scenario :=
  { id := "db_lock",
    name := "Online Migration",
    dev_requirement := "Add a 'last_login' column to the 'Users' table.",
    prod_issue := "💥 OUTAGE ALERT: Users cannot log in!\n❌ The database is unresponsive because the 'Users' table was locked.",
    required_fix_concept := "online_migration",
    validation_criteria := "Migration must use batching or non-blocking syntax to avoid downtime.",
    requirements := ["add_column_last_login", "batch_updates_or_nonblocking", "preserve_user_access"],
    risk_level := "high" }

/-- Third base template of `ScenarioManager.scenarios` (`rate_limit`). -/
def rate_limit_template : Scenario :=
  { id := "rate_limit",
    name := "Global Weather Integration",
    dev_requirement := "Implement a service called 'WeatherProvider' with a function 'fetch_city_stats(city_id)'. The function must call the external 'OpenSky_Weather_API' to get live temperature for each member on the landing page.",
    prod_issue := "💥 SERVICE UNAVAILABLE: 'OpenSky_Weather_API' returned Error 429 (Too Many Requests).\n❌ Our system is attempting 50,000 calls per minute, causing a global IP ban.",
    required_fix_concept := "caching",
    validation_criteria := "Introduce a caching layer (using a dictionary or Redis) within 'WeatherProvider' to ensure 'OpenSky_Weather_API' is only called once per city.",
    requirements := ["implement_weather_provider_class", "integrate_opensky_api_call", "add_caching_logic_with_expiry"],
    risk_level := "medium" }

/-- The base template library `ScenarioManager.scenarios`. -/
def scenarios : List Scenario :=
  [legacy_token_template, db_lock_template, rate_limit_template]

/-- `ScenarioManager.get_dynamic_scenario`, parameterized over the selected
base template and the outcome of the skinning oracle call: on a raised call
or a falsy / id-less response return the unmodified template; otherwise
force-overwrite `id`, `required_fix_concept` and `risk_level` from it. -/
def get_dynamic_scenario (base : Scenario) (resp : DynResult) : SDict :=
  match resp with
  | DynResult.raise => base.toSDict
  | DynResult.null => base.toSDict
  | DynResult.dict d =>
    if d.id.isNone then base.toSDict
    else { d with id := some base.id,
                  required_fix_concept := some base.required_fix_concept,
                  risk_level := some base.risk_level }

/-! ### `state.SimulationState` and the agent nodes -/

/-- The four phases of `SimulationState.current_phase`. -/
inductive Phase where
  | development
  | production_crash
  | debugging
  | resolution
deriving DecidableEq, Repr

/-- `state.SimulationState` (the LangGraph channels), plus the `next_node`
key written by the opening node of `graph.ProductionTrapSim` and read by its
routing function. -/
structure SimState where
  messages : List Msg
  current_phase : Phase
  scenario_id : String
  scenario_data : Scenario
  attempts : Nat
  welcome_presented : Bool
  task_presented : Bool
  crash_presented : Bool
  next_node : Option String
  last_actor : Option String
deriving DecidableEq, Repr

/-- The welcome text emitted by `AgentNodes.team_lead_node`. -/
def welcome_content : String := "🔹 Welcome to the Production Trap Simulator!"

/-- The task-presentation text emitted by `AgentNodes.team_lead_node`. -/
def task_content (scenario : Scenario) : String :=
  "👨‍💻 Team Lead Task:\n" ++ scenario.dev_requirement ++ "\n\nPlease submit your code."

/-- The incident text emitted by `AgentNodes.production_monitor_node`. -/
def alert_content (scenario : Scenario) : String :=
  "🚨 PRODUCTION ALERT 🚨\n\n" ++ scenario.prod_issue ++ "\n\nDeveloper — fix this immediately."

/-- `AgentNodes.team_lead_node`, with the review oracle's reply content as a
parameter (`response.content` of the `llm.invoke` in its evaluation branch).
Returns `none` exactly when the evaluation branch reads
`state["messages"][-1]` on an empty list. -/
def team_lead_node (reply : String) (state : SimState) : Option SimState :=
  let new_state :=
    if state.welcome_presented then state
    else { state with welcome_presented := true }
  let msgs : List Msg :=
    if state.welcome_presented then []
    else [create_ai_message welcome_content]
  if ¬ state.task_presented then
    some { new_state with
      messages := msgs ++ [create_ai_message (task_content state.scenario_data)],
      task_presented := true,
      current_phase := Phase.development }
  else
    match state.messages.getLast? with
    | none => none
    | some _last_msg =>
      some { new_state with
        current_phase :=
          if strContainsSub (strUpper reply) "DEPLOYING" ∧
             ¬ strContainsSub (strUpper reply) "WARN" then
            Phase.production_crash
          else Phase.development,
        messages := [create_ai_message reply] }

/-- `AgentNodes.production_monitor_node`. -/
def production_monitor_node (state : SimState) : SimState :=
  if state.crash_presented then state
  else
    { state with
      messages := [create_sys_message (alert_content state.scenario_data)],
      crash_presented := true,
      current_phase := Phase.debugging }

/-- `AgentNodes.architect_node`, with the outcome of the evaluation oracle
call as a parameter (`Except.error` models `llm.invoke` raising; `Except.ok`
carries the returned message). Returns `none` exactly when
`state["messages"][-1]` is read on an empty list. -/
def architect_node (oracle : Except Unit Msg) (state : SimState) : Option SimState :=
  match state.messages.getLast? with
  | none => none
  | some _last_msg =>
    match oracle with
    | Except.error _ =>
      some { state with
        messages := [create_ai_message "SOLVED"],
        current_phase := Phase.resolution }
    | Except.ok response =>
      let attempts := state.attempts + 1
      some { state with
        attempts := attempts,
        current_phase :=
          if strContainsSub (strUpper response.content) "SOLVED" then Phase.resolution
          else Phase.debugging,
        messages := [response] }

/-! ### `graph.ProductionTrapSim`: the workflow engine -/

/-- `ProductionTrapSim._opening_node`: re-emits the whole message list and the
current phase, and records the routing decision in `next_node`. Channels the
Python dict does not mention keep their previous values. -/
def opening_node (state : SimState) : SimState :=
  { state with
    next_node := some (if state.current_phase = Phase.debugging then "architect" else "team_lead") }

/-- `ProductionTrapSim._route_from_opening`. -/
def route_from_opening (state : SimState) : String :=
  state.next_node.getD "team_lead"

/-- `ProductionTrapSim._route_after_dev`. -/
def route_after_dev (state : SimState) : String :=
  if state.current_phase = Phase.production_crash then "trigger_crash" else "wait_for_user"

/-- `ProductionTrapSim._route_after_debug`. -/
def route_after_debug (state : SimState) : String :=
  if state.current_phase = Phase.resolution then "finished" else "wait_for_user"

/-- LangGraph's application of a node's returned channel values to the
current state: the `messages` channel is combined with its reducer
`add_unique_messages`; every other channel is overwritten. Since every node
returns a value for each channel it touches (and the embedding carries the
untouched channels through unchanged in the returned record), this is a
function of the prior state and the node's full returned record. -/
def mergeUpdate (state update : SimState) : SimState :=
  { update with messages := add_unique_messages state.messages update.messages }

/-- The oracle replies a single engine turn may consume: the Lead's review
reply content and the Validator's evaluation outcome. -/
structure Oracle where
  lead : String
  arch : Except Unit Msg
deriving Repr

/-- One external engine turn (`app.stream(state)` drained until `END`):
opening, conditional routing to Team Lead or Architect, the
`team_lead → production_monitor` edge on `production_crash`, the
unconditional `production_monitor → architect` edge, and suspension after
the Architect or after a Team Lead turn that did not approve. `none` models
an uncaught `IndexError` inside a node. -/
def run_turn (oracle : Oracle) (state : SimState) : Option SimState :=
  let s1 := mergeUpdate state (opening_node state)
  if route_from_opening s1 = "architect" then
    match architect_node oracle.arch s1 with
    | none => none
    | some u => some (mergeUpdate s1 u)
  else
    match team_lead_node oracle.lead s1 with
    | none => none
    | some u =>
      let s2 := mergeUpdate s1 u
      if route_after_dev s2 = "trigger_crash" then
        let s3 := mergeUpdate s2 (production_monitor_node s2)
        match architect_node oracle.arch s3 with
        | none => none
        | some u3 => some (mergeUpdate s3 u3)
      else some s2

/-- `ProductionTrapSim.get_initial_state`, parameterized on the scenario
returned by `ScenarioManager.get_dynamic_scenario` at session creation. -/
def get_initial_state (scenario : Scenario) : SimState :=
  { messages := [],
    current_phase := Phase.development,
    scenario_id := scenario.id,
    scenario_data := scenario,
    attempts := 0,
    welcome_presented := false,
    task_presented := false,
    crash_presented := false,
    next_node := none,
    last_actor := none }

/-! ### Step relation over node invocations (for latch monotonicity) -/

/-- One node invocation applied to the shared state:  any of the four graph
nodes runs on `s` and its returned record is merged into `s` by the engine.
The Lead and Validator steps carry the oracle outcome of that invocation. -/
inductive NodeStep : SimState → SimState → Prop where
  | opening (s : SimState) : NodeStep s (mergeUpdate s (opening_node s))
  | lead (s u : SimState) (reply : String) (h : team_lead_node reply s = some u) :
      NodeStep s (mergeUpdate s u)
  | monitor (s : SimState) : NodeStep s (mergeUpdate s (production_monitor_node s))
  | arch (s u : SimState) (oracle : Except Unit Msg)
      (h : architect_node oracle s = some u) :
      NodeStep s (mergeUpdate s u)

/-- The three progress latches never fall from `true` between two states. -/
def flag_mono (s s' : SimState) : Prop :=
  (s.welcome_presented = true → s'.welcome_presented = true) ∧
  (s.task_presented = true → s'.task_presented = true) ∧
  (s.crash_presented = true → s'.crash_presented = true)

/-! ### Concrete sample data for witnesses and counterexamples -/

/-- An event with no top-level id, as produced by `helper.create_ai_message`. -/
def msg_no_id : Msg := { id := none, content := "hello", role := Role.ai }

/-- An event with a truthy id. -/
def msg_a : Msg := { id := some "m1", content := "hello", role := Role.ai }

/-- A second event sharing `msg_a`'s identifier. -/
def msg_a_dup : Msg := { id := some "m1", content := "hello again", role := Role.ai }

/-- An event with another truthy id. -/
def msg_b : Msg := { id := some "m2", content := "world", role := Role.ai }

/-- A learner submission event carrying a truthy id. -/
def submission_msg : Msg := { id := some "u1", content := "code", role := Role.human }

/-- A mid-session state: both Lead latches set, one learner submission in the
transcript, `development` phase — the state in which the Lead evaluates. -/
def dev_state : SimState :=
  { messages := [submission_msg],
    current_phase := Phase.development,
    scenario_id := "rate_limit",
    scenario_data := rate_limit_template,
    attempts := 0,
    welcome_presented := true,
    task_presented := true,
    crash_presented := false,
    next_node := none,
    last_actor := none }

/-- The same mid-session state with an empty transcript. -/
def empty_msgs_state : SimState :=
  { dev_state with messages := [] }
lemma seen_ids_append (l₁ l₂ : List Msg) :
    seen_ids (l₁ ++ l₂) = seen_ids l₁ ++ seen_ids l₂ := by
  simp [seen_ids, List.filterMap_append]

lemma mem_seen_ids_of_mem {l : List Msg} {m : Msg} {s : String}
    (hm : m ∈ l) (hid : m.id = some s) (ht : idTruthy m.id = true) :
    s ∈ seen_ids l := by
  simp only [seen_ids, List.mem_filterMap]
  refine ⟨m, hm, ?_⟩
  rw [hid] at ht ⊢
  simp [ht]

/-- Merging a full list back into itself is the identity when every event has
a truthy id (the situation relevant for replay safety). -/
lemma add_unique_messages_self (L : List Msg)
    (hL : ∀ m ∈ L, idTruthy m.id = true) :
    add_unique_messages L L = L := by
  unfold add_unique_messages
  simp only
  rw [List.append_right_eq_self, List.filter_eq_nil_iff]
  intro m hm
  have ht := hL m hm
  obtain ⟨s, hs⟩ : ∃ s, m.id = some s := by
    cases h : m.id with
    | none => rw [h] at ht; simp [idTruthy] at ht
    | some s => exact ⟨s, rfl⟩
  simp only [hs, idNotSeen, Bool.not_eq_true, decide_eq_false_iff_not, Classical.not_not]
  exact mem_seen_ids_of_mem hm hs ht

/-- An event whose id is `None` is always appended by a merge. -/
lemma add_unique_messages_none (L : List Msg) (m : Msg) (h : m.id = none) :
    add_unique_messages L [m] = L ++ [m] := by
  simp [add_unique_messages, h, idNotSeen]


lemma pyShuffle_perm (seed : String) (l : List Char) : (pyShuffle seed l).Perm l :=
  List.rotate_perm l _


lemma welcome_update_eq {s : SimState} (h : s.welcome_presented = true) :
    { s with welcome_presented := true } = s := by
  cases s; simp_all

/-- Presentation branch of the Lead: with `task_presented` still false the
node emits the task (preceded by the welcome event when that latch is also
still unset), latches, and stays in `development`. -/
lemma team_lead_node_present (reply : String) {s : SimState}
    (ht : s.task_presented = false) :
    team_lead_node reply s =
      some { s with
        welcome_presented := true,
        task_presented := true,
        current_phase := Phase.development,
        messages :=
          (if s.welcome_presented then [] else [create_ai_message welcome_content]) ++
            [create_ai_message (task_content s.scenario_data)] } := by
  unfold team_lead_node
  by_cases hw : s.welcome_presented <;>
    simp [ht, hw, welcome_update_eq]

/-- Evaluation branch of the Lead on a non-empty transcript. -/
lemma team_lead_node_eval (reply : String) {s : SimState} {last : Msg}
    (ht : s.task_presented = true) (hm : s.messages.getLast? = some last) :
    team_lead_node reply s =
      some { s with
        welcome_presented := true,
        current_phase :=
          if strContainsSub (strUpper reply) "DEPLOYING" ∧
             ¬ strContainsSub (strUpper reply) "WARN" then
            Phase.production_crash
          else Phase.development,
        messages := [create_ai_message reply] } := by
  unfold team_lead_node
  rw [hm]
  by_cases hw : s.welcome_presented <;>
    simp [ht, hw, welcome_update_eq]

/-- Evaluation branch of the Lead on an empty transcript: `IndexError`. -/
lemma team_lead_node_empty (reply : String) {s : SimState}
    (ht : s.task_presented = true) (hm : s.messages.getLast? = none) :
    team_lead_node reply s = none := by
  unfold team_lead_node
  rw [hm]
  simp [ht]

/-- The Validator's fail-open branch on a non-empty transcript. -/
lemma architect_node_err (e : Unit) {s : SimState} {last : Msg}
    (hm : s.messages.getLast? = some last) :
    architect_node (Except.error e) s =
      some { s with
        messages := [create_ai_message "SOLVED"],
        current_phase := Phase.resolution } := by
  unfold architect_node
  rw [hm]

/-- The Validator's verdict branch on a non-empty transcript. -/
lemma architect_node_ok (response : Msg) {s : SimState} {last : Msg}
    (hm : s.messages.getLast? = some last) :
    architect_node (Except.ok response) s =
      some { s with
        attempts := s.attempts + 1,
        current_phase :=
          if strContainsSub (strUpper response.content) "SOLVED" then Phase.resolution
          else Phase.debugging,
        messages := [response] } := by
  unfold architect_node
  rw [hm]

/-- The Validator on an empty transcript: `IndexError`. -/
lemma architect_node_empty (oracle : Except Unit Msg) {s : SimState}
    (hm : s.messages.getLast? = none) :
    architect_node oracle s = none := by
  unfold architect_node
  rw [hm]

lemma flag_mono_trans {a b c : SimState} (h₁ : flag_mono a b) (h₂ : flag_mono b c) :
    flag_mono a c :=
  ⟨fun h => h₂.1 (h₁.1 h), fun h => h₂.2.1 (h₁.2.1 h), fun h => h₂.2.2 (h₁.2.2 h)⟩

lemma team_lead_node_flag_mono {reply : String} {s u : SimState}
    (h : team_lead_node reply s = some u) : flag_mono s u := by
  by_cases ht : s.task_presented
  · cases hm : s.messages.getLast? with
    | none => rw [team_lead_node_empty reply ht hm] at h; exact absurd h (by simp)
    | some last =>
      rw [team_lead_node_eval reply ht hm] at h
      rw [Option.some.injEq] at h
      subst h
      exact ⟨fun _ => rfl, fun h => h, fun h => h⟩
  · rw [team_lead_node_present reply (by simpa using ht)] at h
    rw [Option.some.injEq] at h
    subst h
    exact ⟨fun _ => rfl, fun _ => rfl, fun h => h⟩

lemma architect_node_flag_mono {oracle : Except Unit Msg} {s u : SimState}
    (h : architect_node oracle s = some u) : flag_mono s u := by
  cases hm : s.messages.getLast? with
  | none => rw [architect_node_empty oracle hm] at h; exact absurd h (by simp)
  | some last =>
    cases oracle with
    | error e =>
      rw [architect_node_err e hm, Option.some.injEq] at h
      subst h
      exact ⟨fun h => h, fun h => h, fun h => h⟩
    | ok response =>
      rw [architect_node_ok response hm, Option.some.injEq] at h
      subst h
      exact ⟨fun h => h, fun h => h, fun h => h⟩

lemma production_monitor_node_flag_mono (s : SimState) :
    flag_mono s (production_monitor_node s) := by
  unfold production_monitor_node
  by_cases hc : s.crash_presented <;> simp [hc, flag_mono]

lemma nodeStep_flag_mono {s s' : SimState} (h : NodeStep s s') : flag_mono s s' := by
  cases h with
  | opening => exact ⟨fun h => h, fun h => h, fun h => h⟩
  | lead u reply h =>
    have hl := team_lead_node_flag_mono h
    exact ⟨hl.1, hl.2.1, hl.2.2⟩
  | monitor =>
    have hl := production_monitor_node_flag_mono s
    exact ⟨hl.1, hl.2.1, hl.2.2⟩
  | arch u oracle h =>
    have hl := architect_node_flag_mono h
    exact ⟨hl.1, hl.2.1, hl.2.2⟩

/-! ### Claims -/

/-- C1 (amended): merging the same incoming batch twice yields the same log
as merging it once — `add_unique_messages (add_unique_messages L E) E =
add_unique_messages L E` — for every log `L` and every batch `E` whose
events all carry a present, non-empty identifier, including batches that
repeat an identifier. (For an event whose identifier is absent the merge is
not idempotent: such an event is re-appended by every merge.) -/
theorem merge_idempotent_truthy_ids (L E : List Msg)
    (hE : ∀ m ∈ E, idTruthy m.id = true) :
    add_unique_messages (add_unique_messages L E) E = add_unique_messages L E := by
  unfold add_unique_messages
  simp only
  rw [List.append_right_eq_self]
  rw [List.filter_eq_nil_iff]
  intro m hm
  have ht := hE m hm
  obtain ⟨s, hs⟩ : ∃ s, m.id = some s := by
    cases h : m.id with
    | none => rw [h] at ht; simp [idTruthy] at ht
    | some s => exact ⟨s, rfl⟩
  simp only [hs, idNotSeen, decide_eq_true_eq, Bool.not_eq_true, decide_eq_false_iff_not,
    Classical.not_not]
  rw [seen_ids_append]
  by_cases hseen : s ∈ seen_ids L
  · exact List.mem_append_left _ hseen
  · refine List.mem_append_right _ ?_
    refine mem_seen_ids_of_mem ?_ hs ht
    refine List.mem_filter.2 ⟨hm, ?_⟩
    simp [idNotSeen, hs, hseen]

/-- Witness for C1: a concrete log and a concrete batch (with an in-batch
duplicate identifier) on which the double merge equals the single merge. -/
theorem merge_idempotent_truthy_ids_witness :
    (∀ m ∈ [msg_a, msg_a_dup, msg_b], idTruthy m.id = true) ∧
    add_unique_messages (add_unique_messages [msg_b] [msg_a, msg_a_dup, msg_b])
        [msg_a, msg_a_dup, msg_b] =
      add_unique_messages [msg_b] [msg_a, msg_a_dup, msg_b] :=
  ⟨by decide, merge_idempotent_truthy_ids [msg_b] [msg_a, msg_a_dup, msg_b] (by decide)⟩

/-- Counterexample for C1 as stated: for an event whose identifier is absent
(`None`), merging the same batch twice does not equal merging it once — the
event is appended again. -/
theorem merge_none_id_not_idempotent_cex :
    add_unique_messages (add_unique_messages [] [msg_no_id]) [msg_no_id] = [msg_no_id, msg_no_id] ∧
    add_unique_messages [] [msg_no_id] = [msg_no_id] := by
  constructor <;> decide

/-- C2 (amended): on the Lead node's first invocation (from the initial
state, `welcome_presented = false`), the one-time welcome event is emitted
and its latch set, and — `task_presented` being false as well — the task is
presented in the same invocation: the first engine turn ends with
`welcome_presented = true`, `task_presented = true`, exactly the two Lead
events in the transcript, phase `development`, and suspends without
entering Monitor or Validator (`crash_presented` still false, `attempts`
still 0). -/
theorem first_turn_presents_welcome_and_task (scenario : Scenario) (oracle : Oracle) :
    run_turn oracle (get_initial_state scenario) =
      some { messages := [create_ai_message welcome_content,
                          create_ai_message (task_content scenario)],
             current_phase := Phase.development,
             scenario_id := scenario.id,
             scenario_data := scenario,
             attempts := 0,
             welcome_presented := true,
             task_presented := true,
             crash_presented := false,
             next_node := some "team_lead",
             last_actor := none } := rfl

/-- Counterexample for C2 as stated: after the first engine turn from the
initial state, `task_presented` is `true` (the claim says it is still
`false`) and the transcript holds two events, not only the welcome. -/
theorem first_turn_task_latched_cex :
    (run_turn { lead := "", arch := Except.error () }
        (get_initial_state legacy_token_template)).map
      (fun s => (s.task_presented, s.messages.length)) = some (true, 2) := by
  decide

/-- C3 (amended): an invocation of the Validator whose oracle call returns a
reply reaches a verdict and increments `attempts` by exactly one (including
the parse-failure path, i.e. any reply without `"SOLVED"`); but the
fail-open branch taken when the oracle call itself raises returns early and
leaves `attempts` unchanged. No branch of the other nodes changes
`attempts`. -/
theorem attempts_increment_policy (s : SimState) (response : Msg) (reply : String)
    (hNe : s.messages ≠ []) :
    (∃ u, architect_node (Except.ok response) s = some u ∧ u.attempts = s.attempts + 1) ∧
    (∃ u, architect_node (Except.error ()) s = some u ∧ u.attempts = s.attempts) ∧
    (∀ u, team_lead_node reply s = some u → u.attempts = s.attempts) ∧
    (production_monitor_node s).attempts = s.attempts ∧
    (opening_node s).attempts = s.attempts := by
  obtain ⟨last, hm⟩ := Option.isSome_iff_exists.1 (List.getLast?_isSome.2 hNe)
  refine ⟨⟨_, architect_node_ok response hm, rfl⟩,
          ⟨_, architect_node_err () hm, rfl⟩,
          ?_, ?_, rfl⟩
  · intro u hu
    by_cases ht : s.task_presented
    · rw [team_lead_node_eval reply ht hm, Option.some.injEq] at hu
      subst hu; rfl
    · rw [team_lead_node_present reply (by simpa using ht), Option.some.injEq] at hu
      subst hu; rfl
  · unfold production_monitor_node
    by_cases hc : s.crash_presented <;> simp [hc]

/-- Witness for C3: the policy applied to a concrete mid-session state. -/
theorem attempts_increment_policy_witness :
    dev_state.messages ≠ [] ∧
    ((∃ u, architect_node (Except.ok (create_ai_message "Add a caching layer")) dev_state = some u ∧
        u.attempts = dev_state.attempts + 1) ∧
     (∃ u, architect_node (Except.error ()) dev_state = some u ∧
        u.attempts = dev_state.attempts) ∧
     (∀ u, team_lead_node "DEPLOYING TO PRODUCTION" dev_state = some u →
        u.attempts = dev_state.attempts) ∧
     (production_monitor_node dev_state).attempts = dev_state.attempts ∧
     (opening_node dev_state).attempts = dev_state.attempts) :=
  ⟨by decide,
   attempts_increment_policy dev_state (create_ai_message "Add a caching layer")
     "DEPLOYING TO PRODUCTION" (by decide)⟩

/-- Counterexample for C3 as stated: in the fail-open branch (the oracle
call raises) the Validator reaches its forced `resolution` verdict without
incrementing `attempts` — it stays at 0 where the claim requires 1. -/
theorem attempts_fail_open_not_counted_cex :
    dev_state.attempts = 0 ∧
    (architect_node (Except.error ()) dev_state).map
      (fun u => (u.attempts, u.current_phase)) = some (0, Phase.resolution) := by
  constructor <;> decide

/-- C4 (amended): when the oracle's reply to the Lead contains
`"DEPLOYING"` (in particular the full approval token) and no `"WARN"`, a
single engine turn moves the phase `development → production_crash →
debugging`, with `production_crash` never the resting phase at suspension;
but the Monitor hands off unconditionally to the Validator in the same
turn, so the turn appends three new transcript events — the Lead's
approval, the Monitor's incident, and the Validator's verdict on the
incident (here a hint without `"SOLVED"`) — not two, before suspending. -/
theorem approval_turn_reaches_debugging (M : List Msg) (scenario : Scenario)
    (a : Nat) (reply hint : String)
    (hM : M ≠ [])
    (hIds : ∀ m ∈ M, idTruthy m.id = true)
    (hDep : strContainsSub (strUpper reply) "DEPLOYING" = true)
    (hWarn : strContainsSub (strUpper reply) "WARN" = false)
    (hHint : strContainsSub (strUpper hint) "SOLVED" = false) :
    run_turn { lead := reply, arch := Except.ok (create_ai_message hint) }
        { messages := M, current_phase := Phase.development,
          scenario_id := scenario.id, scenario_data := scenario, attempts := a,
          welcome_presented := true, task_presented := true,
          crash_presented := false, next_node := none, last_actor := none } =
      some { messages := M ++ [create_ai_message reply,
                               create_sys_message (alert_content scenario),
                               create_ai_message hint],
             current_phase := Phase.debugging,
             scenario_id := scenario.id,
             scenario_data := scenario,
             attempts := a + 1,
             welcome_presented := true,
             task_presented := true,
             crash_presented := true,
             next_node := some "team_lead",
             last_actor := none } := by
  obtain ⟨last, hm⟩ := Option.isSome_iff_exists.1 (List.getLast?_isSome.2 hM)
  have hMM : add_unique_messages M M = M := add_unique_messages_self M hIds
  set S0 : SimState :=
    { messages := M, current_phase := Phase.development,
      scenario_id := scenario.id, scenario_data := scenario, attempts := a,
      welcome_presented := true, task_presented := true,
      crash_presented := false, next_node := none, last_actor := none } with hS0
  set S1 : SimState := { S0 with next_node := some "team_lead" } with hS1
  have h1 : mergeUpdate S0 (opening_node S0) = S1 := by
    simp [hS0, hS1, mergeUpdate, opening_node, hMM]
  set S2 : SimState :=
    { S1 with current_phase := Phase.production_crash,
              messages := M ++ [create_ai_message reply] } with hS2
  have h2 : team_lead_node reply S1 = some
      { S1 with current_phase := Phase.production_crash,
                messages := [create_ai_message reply] } := by
    rw [team_lead_node_eval reply
      (show S1.task_presented = true by rw [hS1, hS0])
      (show S1.messages.getLast? = some last by rw [hS1, hS0]; exact hm)]
    simp [hS1, hS0, hDep, hWarn]
  have h2m : mergeUpdate S1
      { S1 with current_phase := Phase.production_crash,
                messages := [create_ai_message reply] } = S2 := by
    simp [hS2, hS1, hS0, mergeUpdate,
      add_unique_messages_none M (create_ai_message reply) rfl]
  set S3 : SimState :=
    { S2 with current_phase := Phase.debugging, crash_presented := true,
              messages := (M ++ [create_ai_message reply]) ++
                [create_sys_message (alert_content scenario)] } with hS3
  have h3 : production_monitor_node S2 =
      { S2 with current_phase := Phase.debugging, crash_presented := true,
                messages := [create_sys_message (alert_content scenario)] } := by
    simp [production_monitor_node, hS2, hS1, hS0]
  have h3m : mergeUpdate S2
      { S2 with current_phase := Phase.debugging, crash_presented := true,
                messages := [create_sys_message (alert_content scenario)] } = S3 := by
    simp [hS3, hS2, hS1, hS0, mergeUpdate,
      add_unique_messages_none (M ++ [create_ai_message reply])
        (create_sys_message (alert_content scenario)) rfl]
  have h4 : architect_node (Except.ok (create_ai_message hint)) S3 = some
      { S3 with attempts := a + 1, messages := [create_ai_message hint] } := by
    rw [architect_node_ok (create_ai_message hint)
      (show S3.messages.getLast? = some (create_sys_message (alert_content scenario)) by
        simp [hS3, hS2, hS1, hS0, List.getLast?_append])]
    simp [hS3, hS2, hS1, hS0, create_ai_message, hHint]
  have h4m : mergeUpdate S3
      { S3 with attempts := a + 1, messages := [create_ai_message hint] } =
      { S3 with attempts := a + 1,
                messages := ((M ++ [create_ai_message reply]) ++
                  [create_sys_message (alert_content scenario)]) ++ [create_ai_message hint] } := by
    simp [hS3, hS2, hS1, hS0, mergeUpdate,
      add_unique_messages_none (M ++ [create_ai_message reply,
        create_sys_message (alert_content scenario)]) (create_ai_message hint) rfl]
  show run_turn { lead := reply, arch := Except.ok (create_ai_message hint) } S0 = _
  rw [run_turn, h1]
  rw [show route_from_opening S1 = "team_lead" by simp [route_from_opening, hS1, hS0]]
  simp only [reduceIte, h2, h2m]
  rw [show route_after_dev S2 = "trigger_crash" by simp [route_after_dev, hS2, hS1, hS0]]
  simp only [reduceIte, h3, h3m, h4, h4m]
  simp [hS3, hS2, hS1, hS0]

/-- Witness for C4: the approving turn run on a concrete mid-session state. -/
theorem approval_turn_reaches_debugging_witness :
    ([submission_msg] ≠ ([] : List Msg)) ∧
    (∀ m ∈ [submission_msg], idTruthy m.id = true) ∧
    strContainsSub (strUpper "DEPLOYING TO PRODUCTION") "DEPLOYING" = true ∧
    strContainsSub (strUpper "DEPLOYING TO PRODUCTION") "WARN" = false ∧
    strContainsSub (strUpper "Add a caching layer") "SOLVED" = false ∧
    run_turn { lead := "DEPLOYING TO PRODUCTION",
               arch := Except.ok (create_ai_message "Add a caching layer") }
        { messages := [submission_msg], current_phase := Phase.development,
          scenario_id := rate_limit_template.id, scenario_data := rate_limit_template,
          attempts := 0, welcome_presented := true, task_presented := true,
          crash_presented := false, next_node := none, last_actor := none } =
      some { messages := [submission_msg] ++
               [create_ai_message "DEPLOYING TO PRODUCTION",
                create_sys_message (alert_content rate_limit_template),
                create_ai_message "Add a caching layer"],
             current_phase := Phase.debugging,
             scenario_id := rate_limit_template.id,
             scenario_data := rate_limit_template,
             attempts := 0 + 1, welcome_presented := true, task_presented := true,
             crash_presented := true, next_node := some "team_lead",
             last_actor := none } :=
  ⟨by decide, by decide, by decide, by decide, by decide,
   approval_turn_reaches_debugging [submission_msg] rate_limit_template 0
     "DEPLOYING TO PRODUCTION" "Add a caching layer"
     (by decide) (by decide) (by decide) (by decide) (by decide)⟩

/-- Counterexample for C4 as stated: the approving turn on a one-event
transcript ends with four events — three new ones (approval, incident, and
the Validator's verdict), not exactly two — though it does rest in
`debugging` as the claim says. -/
theorem approval_turn_two_events_cex :
    dev_state.messages.length = 1 ∧
    (run_turn { lead := "DEPLOYING TO PRODUCTION",
                arch := Except.ok (create_ai_message "Add a caching layer") }
        dev_state).map
      (fun s => (s.messages.length, s.current_phase, s.crash_presented)) =
      some (4, Phase.debugging, true) := by
  constructor <;> decide

/-- C5 (amended): in the Lead node's evaluation branch (non-empty
transcript), the phase is set to `production_crash` if and only if the
uppercased oracle reply contains the substring `"DEPLOYING"` — not
necessarily the full approval token `"DEPLOYING TO PRODUCTION"` — and does
not contain `"WARN"`; otherwise the phase remains `development`; in either
case the oracle's raw reply is emitted as the single new transcript
event. -/
theorem lead_eval_branch_phase (s : SimState) (reply : String)
    (ht : s.task_presented = true) (hNe : s.messages ≠ []) :
    ∃ u, team_lead_node reply s = some u ∧
      (u.current_phase = Phase.production_crash ↔
        (strContainsSub (strUpper reply) "DEPLOYING" = true ∧
         strContainsSub (strUpper reply) "WARN" = false)) ∧
      (u.current_phase = Phase.production_crash ∨
       u.current_phase = Phase.development) ∧
      u.messages = [create_ai_message reply] := by
  obtain ⟨last, hm⟩ := Option.isSome_iff_exists.1 (List.getLast?_isSome.2 hNe)
  refine ⟨_, team_lead_node_eval reply ht hm, ?_, ?_, rfl⟩
  · by_cases hc : strContainsSub (strUpper reply) "DEPLOYING" = true ∧
        ¬ strContainsSub (strUpper reply) "WARN" = true
    · simp only [if_pos hc]
      simp [hc.1, hc.2]
    · simp only [if_neg hc]
      constructor
      · intro h; exact absurd h (by simp)
      · intro h
        exact absurd ⟨h.1, by simp [h.2]⟩ hc
  · by_cases hc : strContainsSub (strUpper reply) "DEPLOYING" = true ∧
        ¬ strContainsSub (strUpper reply) "WARN" = true
    · simp [if_pos hc]
    · simp [if_neg hc]

/-- Witness for C5: a concrete reply containing `"DEPLOYING"` and no
`"WARN"` drives the Lead's evaluation branch to `production_crash`. -/
theorem lead_eval_branch_phase_witness :
    dev_state.task_presented = true ∧ dev_state.messages ≠ [] ∧
    (∃ u, team_lead_node "DEPLOYING TO PRODUCTION" dev_state = some u ∧
      (u.current_phase = Phase.production_crash ↔
        (strContainsSub (strUpper "DEPLOYING TO PRODUCTION") "DEPLOYING" = true ∧
         strContainsSub (strUpper "DEPLOYING TO PRODUCTION") "WARN" = false)) ∧
      (u.current_phase = Phase.production_crash ∨
       u.current_phase = Phase.development) ∧
      u.messages = [create_ai_message "DEPLOYING TO PRODUCTION"]) :=
  ⟨by decide, by decide,
   lead_eval_branch_phase dev_state "DEPLOYING TO PRODUCTION" (by decide) (by decide)⟩

/-- Counterexample for C5 as stated: the reply `"DEPLOYING SOON."` does not
contain the exact approval token `"DEPLOYING TO PRODUCTION"`, yet the Lead
still sets the phase to `production_crash`, because the code only checks
for the substring `"DEPLOYING"`. -/
theorem lead_partial_token_cex :
    strContainsSub "DEPLOYING SOON." "DEPLOYING TO PRODUCTION" = false ∧
    strContainsSub (strUpper "DEPLOYING SOON.") "DEPLOYING TO PRODUCTION" = false ∧
    (team_lead_node "DEPLOYING SOON." dev_state).map (fun u => u.current_phase) =
      some Phase.production_crash := by
  refine ⟨by decide, by decide, by decide⟩

/-- C6: if the oracle call inside the Validator raises (transport failure),
the Validator fails open: it sets the phase to `resolution` and emits a
visible `"SOLVED"` event, so an infrastructure fault never leaves the
learner stuck in `debugging`. (The invocation must have a non-empty
transcript, which every invocation reaching the oracle call has.) -/
theorem architect_fail_open (s : SimState) (e : Unit) (hNe : s.messages ≠ []) :
    architect_node (Except.error e) s =
      some { s with
        messages := [create_ai_message "SOLVED"],
        current_phase := Phase.resolution } := by
  obtain ⟨last, hm⟩ := Option.isSome_iff_exists.1 (List.getLast?_isSome.2 hNe)
  exact architect_node_err e hm

/-- Witness for C6: the fail-open branch on a concrete debugging state. -/
theorem architect_fail_open_witness :
    dev_state.messages ≠ [] ∧
    architect_node (Except.error ()) dev_state =
      some { dev_state with
        messages := [create_ai_message "SOLVED"],
        current_phase := Phase.resolution } :=
  ⟨by decide, architect_fail_open dev_state () (by decide)⟩

/-- C7: for every possible oracle response, `get_dynamic_scenario` returns a
scenario whose `id`, `required_fix_concept` and `risk_level` equal the
selected template's values: a raising, missing/falsy, or id-less response
yields the unmodified template, and a structurally valid response has those
three fields force-overwritten from the template. -/
theorem dynamic_scenario_immutable_fields (base : Scenario) (resp : DynResult) :
    (get_dynamic_scenario base resp).id = some base.id ∧
    (get_dynamic_scenario base resp).required_fix_concept = some base.required_fix_concept ∧
    (get_dynamic_scenario base resp).risk_level = some base.risk_level ∧
    (resp = DynResult.raise ∨ resp = DynResult.null →
      get_dynamic_scenario base resp = base.toSDict) ∧
    (∀ d, resp = DynResult.dict d → d.id = none →
      get_dynamic_scenario base resp = base.toSDict) := by
  cases resp with
  | raise => exact ⟨rfl, rfl, rfl, fun _ => rfl, fun d h => by cases h⟩
  | null => exact ⟨rfl, rfl, rfl, fun _ => rfl, fun d h => by cases h⟩
  | dict d =>
    by_cases hid : d.id.isNone
    · refine ⟨?_, ?_, ?_, ?_, ?_⟩ <;>
        simp [get_dynamic_scenario, hid, Scenario.toSDict]
    · refine ⟨?_, ?_, ?_, ?_, ?_⟩
      · simp [get_dynamic_scenario, hid]
      · simp [get_dynamic_scenario, hid]
      · simp [get_dynamic_scenario, hid]
      · intro h; rcases h with h | h <;> cases h
      · intro d' hd' hnone
        cases hd'
        exact absurd (by simp [hnone] : d.id.isNone = true) hid

/-- Witness for C7: the immutable-fields rule applied to the `legacy_token`
template with a raising oracle (unmodified template returned) — the
hypotheses of the inner implications discharged concretely. -/
theorem dynamic_scenario_immutable_fields_witness :
    (get_dynamic_scenario legacy_token_template DynResult.raise).id =
      some legacy_token_template.id ∧
    get_dynamic_scenario legacy_token_template DynResult.raise =
      legacy_token_template.toSDict :=
  ⟨(dynamic_scenario_immutable_fields legacy_token_template DynResult.raise).1,
   (dynamic_scenario_immutable_fields legacy_token_template DynResult.raise).2.2.2.1
     (Or.inl rfl)⟩

/-- C8 (amended): the signature of `learner_id` is computed by extracting
its digits, returning the fixed fallback `"GEN"` (3 characters) when there
are none, and otherwise deterministically shuffling the digit sequence with
a source seeded by the full id, taking the first three digits and mapping
digit `d` to letter `'A' + d`; being a pure function of `learner_id` it is
identical across repeated computations, but its length is
`min 3 (number of digits)` — it is a 3-character string only when the id
has at least three digits (or none at all). -/
theorem get_id_signature_length (sid : String) :
    (get_id_signature sid).length =
      if (sid.toList.filter Char.isDigit).isEmpty then 3
      else min 3 (sid.toList.filter Char.isDigit).length := by
  simp only [get_id_signature]
  by_cases h : (sid.toList.filter Char.isDigit).isEmpty = true
  · rw [if_pos h, if_pos h]; rfl
  · rw [if_neg h, if_neg h]
    rw [show ∀ l : List Char, (String.mk l).length = l.length from fun _ => rfl]
    rw [List.length_map, List.length_take, (pyShuffle_perm sid _).length_eq]

/-- Counterexample for C8 as stated: `"a1"` has a single digit, and its
signature is the 1-character string `"B"`, not a 3-character string. -/
theorem get_id_signature_short_cex :
    get_id_signature "a1" = "B" ∧ (get_id_signature "a1").length = 1 := by
  constructor <;> decide

/-- C9: across any sequence of node invocations (each node's returned
record merged into the state by the engine), the latches
`welcome_presented`, `task_presented` and `crash_presented` never
transition from `true` to `false`: every node either leaves each flag
unchanged or sets it to `true`. -/
theorem latch_monotone (s s' : SimState)
    (h : Relation.ReflTransGen NodeStep s s') : flag_mono s s' := by
  induction h with
  | refl => exact ⟨fun h => h, fun h => h, fun h => h⟩
  | tail hab hbc ih => exact flag_mono_trans ih (nodeStep_flag_mono hbc)

/-- Witness for C9: a concrete two-step sequence (Monitor, then Validator)
from a state with `welcome_presented` and `task_presented` already latched
keeps all latches up. -/
theorem latch_monotone_witness :
    flag_mono dev_state (mergeUpdate dev_state (production_monitor_node dev_state)) :=
  latch_monotone dev_state _
    (Relation.ReflTransGen.single (NodeStep.monitor dev_state))

/-- C10: the Lead's evaluation branch (entered once `task_presented` is
latched) and the Validator unconditionally read the last transcript event;
on a non-empty transcript the embedded `getLast?` access is `some` and both
nodes succeed, while on an empty transcript both return `none` (the Python
`state["messages"][-1]` raises `IndexError`): non-emptiness of `messages`
is an unstated precondition of both nodes. -/
theorem last_message_unstated_precondition (s : SimState) (reply : String)
    (oracle : Except Unit Msg) :
    (s.messages ≠ [] →
      (s.messages.getLast?).isSome = true ∧
      (architect_node oracle s).isSome = true ∧
      (s.task_presented = true → (team_lead_node reply s).isSome = true)) ∧
    (s.messages = [] →
      architect_node oracle s = none ∧
      (s.task_presented = true → team_lead_node reply s = none)) := by
  constructor
  · intro hNe
    obtain ⟨last, hm⟩ := Option.isSome_iff_exists.1 (List.getLast?_isSome.2 hNe)
    refine ⟨by simp [hm], ?_, ?_⟩
    · cases oracle with
      | error e => rw [architect_node_err e hm]; rfl
      | ok r => rw [architect_node_ok r hm]; rfl
    · intro ht
      rw [team_lead_node_eval reply ht hm]; rfl
  · intro hempty
    have hm : s.messages.getLast? = none := by simp [hempty]
    exact ⟨architect_node_empty oracle hm,
           fun ht => team_lead_node_empty reply ht hm⟩

/-- Witness for C10: the precondition facts at a concrete non-empty state
and at a concrete empty-transcript state. -/
theorem last_message_unstated_precondition_witness :
    (dev_state.messages ≠ [] ∧
      (architect_node (Except.ok (create_ai_message "needs work")) dev_state).isSome = true) ∧
    (empty_msgs_state.messages = [] ∧
      architect_node (Except.ok (create_ai_message "needs work")) empty_msgs_state = none) :=
  ⟨⟨by decide,
    ((last_message_unstated_precondition dev_state "r"
        (Except.ok (create_ai_message "needs work"))).1 (by decide)).2.1⟩,
   ⟨by decide,
    ((last_message_unstated_precondition empty_msgs_state "r"
        (Except.ok (create_ai_message "needs work"))).2 (by decide)).1⟩⟩
